import Mathlib

/-!
# jhipster-core: `lib/core/jdl_relationship.js`

A shallow embedding of the `JDLRelationship` class (constructor, `isValid`,
`getId`, `validate`, `toString`) together with the properties of its
natural-language specification.

Conventions of the embedding:

* the string-valued fields of a relationship hold a JavaScript value that is
  `undefined`, `null` or a string (`Value`); truthiness and template-literal
  interpolation follow JavaScript;
* a thrown value is either an object made by `buildException` or the native
  `ReferenceError` raised when an undeclared identifier is read;
* `console.warn` is modelled by the list of lines written by the call;
* the table `RELATIONSHIP_TYPES` lives in another module: it is a parameter
  (`RelationshipTypes`), and the facts about it that a result needs are stated
  as `RelationshipTypes.WellFormed`.
-/

namespace JDL

/-! ## JavaScript values -/

/-- The values a string-typed property can hold: `undefined`, `null` or a string. -/
inductive Value where
  | undefined
  | null
  | str (s : String)
  deriving DecidableEq, Repr

/-- JavaScript truthiness (`if (v)`, `!v`, `v || w`): only a non-empty string is truthy. -/
def Value.truthy : Value → Bool
  | .str s => !(s == "")
  | _ => false

/-- The loose comparison `v != null`: false exactly for `null` and `undefined`. -/
def Value.notNullish : Value → Bool
  | .str _ => true
  | _ => false

/-- Interpolation of a value in a template literal. -/
def Value.toJSString : Value → String
  | .undefined => "undefined"
  | .null => "null"
  | .str s => s

/-! ## Collaborators that live in other modules -/

/-- The names in `exceptions` that `jdl_relationship.js` passes to `buildException`. -/
inductive ExceptionName where
  | InvalidObject
  | NullPointer
  | MalformedAssociation
  | WrongAssociation
  deriving DecidableEq, Repr

/-- What a `throw` can raise in this module.
Modelled from the spec: `buildException(name, message)` of
`exceptions/exception_factory` is not in this file; following the spec
("a typed failure ... carrying a human-readable message") a built exception
is the pair of its name and its message. `referenceError x` is the native
`ReferenceError: x is not defined`. -/
inductive Thrown where
  | built (name : ExceptionName) (message : String)
  | referenceError (identifier : String)
  deriving DecidableEq, Repr

deriving instance DecidableEq for Except

/-- The table `RELATIONSHIP_TYPES` of `jhipster/relationship_types`: four string constants. -/
structure RelationshipTypes where
  ONE_TO_ONE : String
  ONE_TO_MANY : String
  MANY_TO_ONE : String
  MANY_TO_MANY : String
  deriving DecidableEq, Repr

/-- The four constants are non-empty and pairwise distinct. -/
def RelationshipTypes.WellFormed (RT : RelationshipTypes) : Prop :=
  RT.ONE_TO_ONE ≠ "" ∧ RT.ONE_TO_MANY ≠ "" ∧ RT.MANY_TO_ONE ≠ "" ∧ RT.MANY_TO_MANY ≠ "" ∧
  RT.ONE_TO_ONE ≠ RT.ONE_TO_MANY ∧ RT.ONE_TO_ONE ≠ RT.MANY_TO_ONE ∧
  RT.ONE_TO_ONE ≠ RT.MANY_TO_MANY ∧ RT.ONE_TO_MANY ≠ RT.MANY_TO_ONE ∧
  RT.ONE_TO_MANY ≠ RT.MANY_TO_MANY ∧ RT.MANY_TO_ONE ≠ RT.MANY_TO_MANY

instance (RT : RelationshipTypes) : Decidable RT.WellFormed := by
  unfold RelationshipTypes.WellFormed; infer_instance

/-- The values of the table, in declaration order. -/
def RelationshipTypes.values (RT : RelationshipTypes) : List String :=
  [RT.ONE_TO_ONE, RT.ONE_TO_MANY, RT.MANY_TO_ONE, RT.MANY_TO_MANY]

/-- Modelled from the spec: `exists(type)` of `jhipster/relationship_types` is not in
this file; per the spec a kind is recognized iff it is a member of the set of the four
kinds, so a value is recognized iff it is a string equal to one of the four constants. -/
def RelationshipTypes.exists (RT : RelationshipTypes) : Value → Bool
  | .str s => RT.values.contains s
  | _ => false

/-- An entity object, as far as this module reads it: its `name`. -/
structure JDLEntity where
  name : String
  deriving DecidableEq, Repr

/-- What the `from` / `to` properties can hold: `undefined`, `null` or an entity object. -/
inductive EntityRef where
  | undefined
  | null
  | obj (e : JDLEntity)
  deriving DecidableEq, Repr

/-- Modelled from the spec: `JDLEntity.isValid` of `./jdl_entity` is not in this file;
per the spec an entity reference is valid iff it is non-null and has a non-empty name. -/
def JDLEntity.isValid : EntityRef → Bool
  | .obj e => !(e.name == "")
  | _ => false

/-! ## Construction -/

/-- A plain object with the keys the constructor reads; `none` is a key that the
object does not have. -/
structure Args where
  «from» : Option EntityRef := none
  «to» : Option EntityRef := none
  type : Option Value := none
  injectedFieldInFrom : Option Value := none
  injectedFieldInTo : Option Value := none
  commentInFrom : Option Value := none
  commentInTo : Option Value := none
  deriving DecidableEq, Repr

/-- Reading a string-valued property of a plain object: an absent key reads `undefined`. -/
def Args.get (p : Option Value) : Value := p.getD .undefined

/-- Reading an entity-valued property of a plain object: an absent key reads `undefined`. -/
def Args.getRef (p : Option EntityRef) : EntityRef := p.getD .undefined

/-- The function `defaults()` at the end of the module. -/
def defaults (RT : RelationshipTypes) : Args where
  type := some (.str RT.ONE_TO_ONE)
  injectedFieldInFrom := some .null
  injectedFieldInTo := some .null
  commentInFrom := some (.str "")
  commentInTo := some (.str "")

/-- Modelled from the spec: `merge` of `utils/object_utils` is not in this file; per the
spec it is a shallow merge with defaults: every key of the second object overrides the
same key of the first, and every other key of the first is kept. -/
def merge (object1 object2 : Args) : Args where
  «from» := object2.from <|> object1.from
  «to» := object2.to <|> object1.to
  type := object2.type <|> object1.type
  injectedFieldInFrom := object2.injectedFieldInFrom <|> object1.injectedFieldInFrom
  injectedFieldInTo := object2.injectedFieldInTo <|> object1.injectedFieldInTo
  commentInFrom := object2.commentInFrom <|> object1.commentInFrom
  commentInTo := object2.commentInTo <|> object1.commentInTo

/-- An instance of the class `JDLRelationship`. -/
structure JDLRelationship where
  «from» : JDLEntity
  «to» : JDLEntity
  type : Value
  injectedFieldInFrom : Value
  injectedFieldInTo : Value
  commentInFrom : Value
  commentInTo : Value
  deriving DecidableEq, Repr

/-- The result of `new JDLRelationship(args)`: the instance, or the thrown value. -/
def JDLRelationship.new (RT : RelationshipTypes) (args : Args) : Except Thrown JDLRelationship :=
  let merged := merge (defaults RT) args
  if !JDLEntity.isValid (Args.getRef merged.from) || !JDLEntity.isValid (Args.getRef merged.to) then
    .error (.built .InvalidObject "Valid source and destination entities are required.")
  else if !RT.exists (Args.get merged.type)
      || !((Args.get merged.injectedFieldInFrom).truthy || (Args.get merged.injectedFieldInTo).truthy) then
    .error (.built .NullPointer "The type, and at least one injected field must be passed.")
  else
    match Args.getRef merged.from, Args.getRef merged.to with
    | .obj f, .obj t =>
      .ok {
        «from» := f
        «to» := t
        type := Args.get merged.type
        injectedFieldInFrom := Args.get merged.injectedFieldInFrom
        injectedFieldInTo := Args.get merged.injectedFieldInTo
        commentInFrom := Args.get merged.commentInFrom
        commentInTo := Args.get merged.commentInTo }
    | _, _ =>
      .error (.built .InvalidObject "Valid source and destination entities are required.")

/-- The plain object whose keys are the fields of an instance. -/
def JDLRelationship.toObject (self : JDLRelationship) : Args where
  «from» := some (.obj self.from)
  «to» := some (.obj self.to)
  type := some self.type
  injectedFieldInFrom := some self.injectedFieldInFrom
  injectedFieldInTo := some self.injectedFieldInTo
  commentInFrom := some self.commentInFrom
  commentInTo := some self.commentInTo

/-- The static `JDLRelationship.isValid(relationship)`; `none` is `null` / `undefined`. -/
def JDLRelationship.isValid (RT : RelationshipTypes) (relationship : Option Args) : Bool :=
  match relationship with
  | none => false
  | some r =>
    RT.exists (Args.get r.type)
      && r.from.isSome && JDLEntity.isValid (Args.getRef r.from)
      && r.to.isSome && JDLEntity.isValid (Args.getRef r.to)
      && ((r.injectedFieldInFrom.isSome && (Args.get r.injectedFieldInFrom).notNullish)
        || (r.injectedFieldInTo.isSome && (Args.get r.injectedFieldInTo).notNullish))

/-! ## Identity -/

/-- The method `getId()`. -/
def JDLRelationship.getId (self : JDLRelationship) : String :=
  self.type.toJSString ++ "_" ++ self.from.name
    ++ (if self.injectedFieldInFrom.truthy then
          "\x7b" ++ self.injectedFieldInFrom.toJSString ++ "\x7d" else "")
    ++ "_" ++ self.to.name
    ++ (if self.injectedFieldInTo.truthy then self.injectedFieldInTo.toJSString else "")

/-! ## Validation -/

/-- What a call of `validate()` leaves behind: how it ended (returned or threw), the
instance after the call, and the lines written with `console.warn`. -/
structure ValidateResult where
  outcome : Except Thrown Unit
  self : JDLRelationship
  console : List String
  deriving DecidableEq, Repr

/-- The method `validate()`. The `switch` compares `this.type` with the four constants
with `===`, in the order of its `case` labels. -/
def JDLRelationship.validate (RT : RelationshipTypes) (self : JDLRelationship) : ValidateResult :=
  let sourceName := self.from.name
  let destinationName := self.to.name
  if !self.type.truthy then
    ⟨.error (.built .NullPointer "The association must not be nil."), self, []⟩
  else if self.type = .str RT.ONE_TO_ONE then
    if !self.injectedFieldInFrom.truthy then
      ⟨.error (.built .MalformedAssociation
        ("In the One-to-One relationship from " ++ sourceName ++ " to " ++ destinationName ++ ", "
          ++ "the source entity must possess the destination in a One-to-One "
          ++ " relationship, or you must invert the direction of the relationship.")), self, []⟩
    else ⟨.ok (), self, []⟩
  else if self.type = .str RT.ONE_TO_MANY then
    if !self.injectedFieldInFrom.truthy || !self.injectedFieldInTo.truthy then
      ⟨.ok (), self,
        ["In the One-to-Many relationship from " ++ sourceName ++ " to  " ++ destinationName ++ ", "
          ++ "only bidirectionality is supported for a One-to-Many association. "
          ++ "The other side will be automatically added."]⟩
    else ⟨.ok (), self, []⟩
  else if self.type = .str RT.MANY_TO_ONE then
    if self.injectedFieldInFrom.truthy && self.injectedFieldInTo.truthy then
      ⟨.error (.built .MalformedAssociation
        ("In the Many-to-One relationship from " ++ sourceName ++ " to " ++ destinationName ++ ", "
          ++ "only unidirectionality is supported for a Many-to-One relationship, "
          ++ "you should create a bidirectional One-to-Many relationship instead.")), self, []⟩
    else ⟨.ok (), self, []⟩
  else if self.type = .str RT.MANY_TO_MANY then
    if !self.injectedFieldInFrom.truthy || !self.injectedFieldInTo.truthy then
      ⟨.error (.built .MalformedAssociation
        ("In the Many-to-Many relationship from " ++ sourceName ++ " to " ++ destinationName ++ ", "
          ++ "only bidirectionality is supported for a Many-to-Many relationship.")), self, []⟩
    else ⟨.ok (), self, []⟩
  else
    -- the template literal of the default branch reads the undeclared `association`
    ⟨.error (.referenceError "association"), self, []⟩

/-! ## Rendering -/

/-- The method `toString()`. -/
def JDLRelationship.toString (self : JDLRelationship) : String :=
  let string := "relationship " ++ self.type.toJSString ++ " \x7b\n  "
  let string :=
    if self.commentInFrom.truthy then
      string ++ ("/**\n   * " ++ self.commentInFrom.toJSString ++ "\n   */\n  ")
    else string
  let string := string ++ self.from.name
  let string :=
    if self.injectedFieldInFrom.truthy then
      string ++ ("\x7b" ++ self.injectedFieldInFrom.toJSString ++ "\x7d")
    else string
  let string := string ++ " to"
  let string :=
    if self.commentInTo.truthy then
      string ++ ("\n  /**\n   * " ++ self.commentInTo.toJSString ++ "\n   */\n  ")
    else string ++ " "
  let string := string ++ self.to.name
  let string :=
    if self.injectedFieldInTo.truthy then
      string ++ ("\x7b" ++ self.injectedFieldInTo.toJSString ++ "\x7d")
    else string
  string ++ "\n\x7d"

/-! ## Sample data -/

/-- The table with the constants spelled as the names of the four kinds. -/
def sampleTypes : RelationshipTypes where
  ONE_TO_ONE := "ONE_TO_ONE"
  ONE_TO_MANY := "ONE_TO_MANY"
  MANY_TO_ONE := "MANY_TO_ONE"
  MANY_TO_MANY := "MANY_TO_MANY"

/-- An entity reference to an entity object with the given name. -/
def entity (name : String) : EntityRef := .obj ⟨name⟩

/-- An injected field of a configuration is absent: the key is missing, or it holds
`undefined`, `null` or the empty string. -/
def Absent (p : Option Value) : Prop :=
  p = none ∨ p = some .undefined ∨ p = some .null ∨ p = some (.str "")

instance (p : Option Value) : Decidable (Absent p) := by
  unfold Absent; infer_instance

/-! ## Definitions used to state the properties -/

/-- The string of a present value: `some s` for a non-empty string `s`, `none` for
`undefined`, `null` and the empty string. -/
def Value.present : Value → Option String
  | .str s => if s = "" then none else some s
  | _ => none

/-- The identity as the specification words it: the kind, an underscore, the name of
`from`, the bracket-wrapped injected field of `from` if present, an underscore, the name
of `to`, and the injected field of `to` if present. -/
def identityOfComponents (kind fromName : String) (injectedFieldInFrom : Option String)
    (toName : String) (injectedFieldInTo : Option String) : String :=
  kind ++ "_" ++ fromName
    ++ (match injectedFieldInFrom with
        | some f => "\x7b" ++ f ++ "\x7d"
        | none => "")
    ++ "_" ++ toName
    ++ (match injectedFieldInTo with
        | some t => t
        | none => "")

/-- The instance has no delimiter of `getId()` where the identity is cut: `from.name`
contains neither `_` nor an opening brace, and the injected field of `from` contains no
closing brace. -/
def JDLRelationship.delimiterFree (self : JDLRelationship) : Bool :=
  !self.from.name.data.contains '_' && !self.from.name.data.contains '\x7b'
    && !self.injectedFieldInFrom.toJSString.data.contains '\x7d'

/-- No constant of the table followed by `_` is the beginning of another constant
followed by `_`. -/
def RelationshipTypes.Unambiguous (RT : RelationshipTypes) : Prop :=
  ∀ k₁ ∈ RT.values, ∀ k₂ ∈ RT.values, (k₁.data ++ ['_']) <+: (k₂.data ++ ['_']) → k₁ = k₂

instance (RT : RelationshipTypes) : Decidable RT.Unambiguous := by
  unfold RelationshipTypes.Unambiguous; infer_instance

/-- An instance that some call of the constructor returns. -/
def Constructed (RT : RelationshipTypes) (r : JDLRelationship) : Prop :=
  ∃ args, JDLRelationship.new RT args = .ok r

/-- The configuration of a relationship from `Customer` to `Address` whose injected
fields are `address` and `es`. -/
def argsAddressEs : Args where
  «from» := some (entity "Customer")
  «to» := some (entity "Address")
  injectedFieldInFrom := some (.str "address")
  injectedFieldInTo := some (.str "es")

/-- The instance constructed from `argsAddressEs`. -/
def relAddressEs : JDLRelationship where
  «from» := ⟨"Customer"⟩
  «to» := ⟨"Address"⟩
  type := .str "ONE_TO_ONE"
  injectedFieldInFrom := .str "address"
  injectedFieldInTo := .str "es"
  commentInFrom := .str ""
  commentInTo := .str ""

/-- The configuration of a relationship from `Customer` to `Addresses` whose only
injected field is `address`. -/
def argsAddresses : Args where
  «from» := some (entity "Customer")
  «to» := some (entity "Addresses")
  injectedFieldInFrom := some (.str "address")

/-- The instance constructed from `argsAddresses`. -/
def relAddresses : JDLRelationship where
  «from» := ⟨"Customer"⟩
  «to» := ⟨"Addresses"⟩
  type := .str "ONE_TO_ONE"
  injectedFieldInFrom := .str "address"
  injectedFieldInTo := .null
  commentInFrom := .str ""
  commentInTo := .str ""

/-- The configuration of a MANY_TO_ONE relationship from `Job_History` to `Employee`
whose only injected field is `jobs`, on the side of `to`. -/
def argsUnderscoreInFrom : Args where
  «from» := some (entity "Job_History")
  «to» := some (entity "Employee")
  type := some (.str "MANY_TO_ONE")
  injectedFieldInTo := some (.str "jobs")

/-- The instance constructed from `argsUnderscoreInFrom`. -/
def relUnderscoreInFrom : JDLRelationship where
  «from» := ⟨"Job_History"⟩
  «to» := ⟨"Employee"⟩
  type := .str "MANY_TO_ONE"
  injectedFieldInFrom := .null
  injectedFieldInTo := .str "jobs"
  commentInFrom := .str ""
  commentInTo := .str ""

/-- The configuration `argsUnderscoreInFrom` with the empty string given as injected
field of `from`. -/
def argsUnderscoreInFromEmpty : Args :=
  { argsUnderscoreInFrom with injectedFieldInFrom := some (.str "") }

/-- The instance constructed from `argsUnderscoreInFromEmpty`. -/
def relUnderscoreInFromEmpty : JDLRelationship :=
  { relUnderscoreInFrom with injectedFieldInFrom := .str "" }

/-- The configuration of a MANY_TO_ONE relationship from `Job` to `History_Employee`
whose only injected field is `jobs`, on the side of `to`. -/
def argsUnderscoreInTo : Args where
  «from» := some (entity "Job")
  «to» := some (entity "History_Employee")
  type := some (.str "MANY_TO_ONE")
  injectedFieldInTo := some (.str "jobs")

/-- The instance constructed from `argsUnderscoreInTo`. -/
def relUnderscoreInTo : JDLRelationship where
  «from» := ⟨"Job"⟩
  «to» := ⟨"History_Employee"⟩
  type := .str "MANY_TO_ONE"
  injectedFieldInFrom := .null
  injectedFieldInTo := .str "jobs"
  commentInFrom := .str ""
  commentInTo := .str ""

/-- The text `part` occurs in the text `message`. -/
def Mentions (message part : String) : Prop := part.data <:+: message.data

instance (message part : String) : Decidable (Mentions message part) := by
  unfold Mentions; infer_instance

/-- The rendering as the specification words it, for an instance without comments:
`relationship <kind> {`, then on an indented line `from.name`, its injected field between
braces if present, the word `to`, `to.name` and its injected field between braces if
present, then the closing brace on a line of its own. -/
def renderingOfComponents (kind fromName : String) (injectedFieldInFrom : Option String)
    (toName : String) (injectedFieldInTo : Option String) : String :=
  "relationship " ++ kind ++ " \x7b\n  " ++ fromName
    ++ (match injectedFieldInFrom with
        | some f => "\x7b" ++ f ++ "\x7d"
        | none => "")
    ++ " to " ++ toName
    ++ (match injectedFieldInTo with
        | some t => "\x7b" ++ t ++ "\x7d"
        | none => "")
    ++ "\n\x7d"

/-- A rendered comment block: the line `/**`, the line ` * <comment>`, the line `*/`, and
the indentation of the line that follows the block. -/
def commentBlock (comment : String) : String :=
  "/**\n   * " ++ comment ++ "\n   */\n  "

/-- The opening of a rendering, up to the indentation of its second line. -/
def JDLRelationship.opening (self : JDLRelationship) : String :=
  "relationship " ++ self.type.toJSString ++ " \x7b\n  "

/-- The rendered source side: `from.name` and its injected field between braces if
present. -/
def JDLRelationship.fromSide (self : JDLRelationship) : String :=
  self.from.name
    ++ (if self.injectedFieldInFrom.truthy then
          "\x7b" ++ self.injectedFieldInFrom.toJSString ++ "\x7d" else "")

/-- The rendered destination side: `to.name` and its injected field between braces if
present. -/
def JDLRelationship.toSide (self : JDLRelationship) : String :=
  self.to.name
    ++ (if self.injectedFieldInTo.truthy then
          "\x7b" ++ self.injectedFieldInTo.toJSString ++ "\x7d" else "")

/-- The instance with both comments replaced by the empty string. -/
def JDLRelationship.withoutComments (self : JDLRelationship) : JDLRelationship :=
  { self with commentInFrom := .str "", commentInTo := .str "" }

/-- The MANY_TO_MANY relationship from `Student` to `Course` with the injected fields
`courses` and `students`, without comments. -/
def relStudentCourse : JDLRelationship where
  «from» := ⟨"Student"⟩
  «to» := ⟨"Course"⟩
  type := .str "MANY_TO_MANY"
  injectedFieldInFrom := .str "courses"
  injectedFieldInTo := .str "students"
  commentInFrom := .str ""
  commentInTo := .str ""

/-- The relationship `relStudentCourse` with a comment on each side. -/
def relStudentCourseCommented : JDLRelationship :=
  { relStudentCourse with
    commentInFrom := .str "the students", commentInTo := .str "the courses" }

/-- The MANY_TO_MANY relationship from `Student` to `Course` whose only injected field is
`courses`, on the side of `from`. -/
def relStudentCourseOneSided : JDLRelationship where
  «from» := ⟨"Student"⟩
  «to» := ⟨"Course"⟩
  type := .str "MANY_TO_MANY"
  injectedFieldInFrom := .str "courses"
  injectedFieldInTo := .null
  commentInFrom := .str ""
  commentInTo := .str ""

/-- An injected field of a configuration is either left unspecified (the key is missing)
or a non-empty string. -/
def UnspecifiedOrNonEmpty (p : Option Value) : Prop :=
  p = none ∨ ∃ s, p = some (.str s) ∧ s ≠ ""

/-- The configuration that gives only the endpoints `Customer` and `Address` and the
injected field `address` of `from`. -/
def argsCustomerAddress : Args where
  «from» := some (entity "Customer")
  «to» := some (entity "Address")
  injectedFieldInFrom := some (.str "address")

/-- The instance constructed from `argsCustomerAddress`. -/
def relCustomerAddress : JDLRelationship where
  «from» := ⟨"Customer"⟩
  «to» := ⟨"Address"⟩
  type := .str "ONE_TO_ONE"
  injectedFieldInFrom := .str "address"
  injectedFieldInTo := .null
  commentInFrom := .str ""
  commentInTo := .str ""

/-- The ONE_TO_MANY relationship from `Owner` to `Car` whose only injected field is
`cars`, on the side of `from`. -/
def relOwnerCar : JDLRelationship where
  «from» := ⟨"Owner"⟩
  «to» := ⟨"Car"⟩
  type := .str "ONE_TO_MANY"
  injectedFieldInFrom := .str "cars"
  injectedFieldInTo := .null
  commentInFrom := .str ""
  commentInTo := .str ""

/-- The plain object with valid endpoints, the kind ONE_TO_ONE, the empty string as
injected field of `from` and `null` as injected field of `to`. -/
def recordEmptyInjectedField (RT : RelationshipTypes) : Args where
  «from» := some (entity "Customer")
  «to» := some (entity "Address")
  type := some (.str RT.ONE_TO_ONE)
  injectedFieldInFrom := some (.str "")
  injectedFieldInTo := some .null

/-! ## Basic facts -/

theorem Value.truthy_str (s : String) : (Value.str s).truthy = true ↔ s ≠ "" := by
  simp [Value.truthy]

theorem Value.truthy_iff (v : Value) : v.truthy = true ↔ ∃ s, v = .str s ∧ s ≠ "" := by
  cases v <;> simp [Value.truthy]

theorem merged_from (RT : RelationshipTypes) (args : Args) :
    (merge (defaults RT) args).from = args.from := by
  cases h : args.from <;> simp [merge, defaults, h]

theorem merged_to (RT : RelationshipTypes) (args : Args) :
    (merge (defaults RT) args).to = args.to := by
  cases h : args.to <;> simp [merge, defaults, h]

theorem merged_injectedFieldInFrom_falsy (RT : RelationshipTypes) (args : Args)
    (h : Absent args.injectedFieldInFrom) :
    (Args.get (merge (defaults RT) args).injectedFieldInFrom).truthy = false := by
  rcases h with h | h | h | h <;> simp [merge, defaults, h, Args.get, Value.truthy]

theorem merged_injectedFieldInTo_falsy (RT : RelationshipTypes) (args : Args)
    (h : Absent args.injectedFieldInTo) :
    (Args.get (merge (defaults RT) args).injectedFieldInTo).truthy = false := by
  rcases h with h | h | h | h <;> simp [merge, defaults, h, Args.get, Value.truthy]

/-! ## Properties of the constructor -/

/-- C1: whenever `from` or `to` of the configuration fails `JDLEntity.isValid`, the
constructor throws the `InvalidObject` exception and yields no instance, whatever the
kind and the injected fields of the configuration are. -/
theorem constructor_rejects_invalid_endpoints (RT : RelationshipTypes) (args : Args)
    (h : JDLEntity.isValid (Args.getRef args.from) = false
      ∨ JDLEntity.isValid (Args.getRef args.to) = false) :
    JDLRelationship.new RT args
      = .error (.built .InvalidObject "Valid source and destination entities are required.") := by
  unfold JDLRelationship.new
  simp only [merged_from, merged_to]
  rcases h with h | h <;> simp [h]

theorem constructor_rejects_invalid_endpoints_witness :
    (JDLEntity.isValid (Args.getRef (some EntityRef.null)) = false
      ∨ JDLEntity.isValid (Args.getRef (some (entity "Address"))) = false)
    ∧ JDLRelationship.new sampleTypes
        { «from» := some .null, «to» := some (entity "Address"),
          type := some (.str "Unknown"), injectedFieldInFrom := none }
      = .error (.built .InvalidObject "Valid source and destination entities are required.") :=
  ⟨Or.inl rfl, constructor_rejects_invalid_endpoints sampleTypes _ (Or.inl rfl)⟩

/-- C2: with two valid endpoints and both injected fields absent (key missing,
`undefined`, `null` or the empty string), the constructor throws the `NullPointer`
exception, whatever the kind of the configuration is: each of the four kinds, the
defaulted kind, or anything else. -/
theorem constructor_requires_injected_field (RT : RelationshipTypes) (args : Args)
    (hfrom : JDLEntity.isValid (Args.getRef args.from) = true)
    (hto : JDLEntity.isValid (Args.getRef args.to) = true)
    (hif : Absent args.injectedFieldInFrom) (hit : Absent args.injectedFieldInTo) :
    JDLRelationship.new RT args
      = .error (.built .NullPointer
          "The type, and at least one injected field must be passed.") := by
  unfold JDLRelationship.new
  simp only [merged_from, merged_to]
  simp [hfrom, hto, merged_injectedFieldInFrom_falsy RT args hif,
    merged_injectedFieldInTo_falsy RT args hit]

theorem constructor_requires_injected_field_witness :
    JDLEntity.isValid (Args.getRef (some (entity "Customer"))) = true
    ∧ JDLEntity.isValid (Args.getRef (some (entity "Address"))) = true
    ∧ Absent (some (Value.str "")) ∧ Absent none
    ∧ JDLRelationship.new sampleTypes
        { «from» := some (entity "Customer"), «to» := some (entity "Address"),
          type := some (.str "MANY_TO_MANY"),
          injectedFieldInFrom := some (.str ""), injectedFieldInTo := none }
      = .error (.built .NullPointer
          "The type, and at least one injected field must be passed.") :=
  ⟨rfl, rfl, Or.inr (Or.inr (Or.inr rfl)), Or.inl rfl,
    constructor_requires_injected_field sampleTypes _ rfl rfl
      (Or.inr (Or.inr (Or.inr rfl))) (Or.inl rfl)⟩

/-- C3: the constructor returns an instance exactly when both resolved endpoints are
valid, the resolved kind is recognized and at least one resolved injected field is
non-empty; the instance then carries the resolved values field by field; and with valid
endpoints an unrecognized kind throws `NullPointer` even if an injected field is given. -/
theorem constructor_succeeds_iff (RT : RelationshipTypes) (args : Args) :
    ((∃ r, JDLRelationship.new RT args = .ok r) ↔
      (JDLEntity.isValid (Args.getRef (merge (defaults RT) args).from) = true
        ∧ JDLEntity.isValid (Args.getRef (merge (defaults RT) args).to) = true
        ∧ RT.exists (Args.get (merge (defaults RT) args).type) = true
        ∧ ((Args.get (merge (defaults RT) args).injectedFieldInFrom).truthy = true
          ∨ (Args.get (merge (defaults RT) args).injectedFieldInTo).truthy = true)))
    ∧ (∀ r, JDLRelationship.new RT args = .ok r →
        EntityRef.obj r.from = Args.getRef (merge (defaults RT) args).from
        ∧ EntityRef.obj r.to = Args.getRef (merge (defaults RT) args).to
        ∧ r.type = Args.get (merge (defaults RT) args).type
        ∧ r.injectedFieldInFrom = Args.get (merge (defaults RT) args).injectedFieldInFrom
        ∧ r.injectedFieldInTo = Args.get (merge (defaults RT) args).injectedFieldInTo
        ∧ r.commentInFrom = Args.get (merge (defaults RT) args).commentInFrom
        ∧ r.commentInTo = Args.get (merge (defaults RT) args).commentInTo)
    ∧ (JDLEntity.isValid (Args.getRef (merge (defaults RT) args).from) = true →
        JDLEntity.isValid (Args.getRef (merge (defaults RT) args).to) = true →
        RT.exists (Args.get (merge (defaults RT) args).type) = false →
        JDLRelationship.new RT args
          = .error (.built .NullPointer
              "The type, and at least one injected field must be passed.")) := by
  simp only [JDLRelationship.new]
  generalize merge (defaults RT) args = merged
  refine ⟨?_, ?_, ?_⟩
  · cases hf : Args.getRef merged.from <;> cases ht : Args.getRef merged.to <;>
      simp [JDLEntity.isValid]
    rename_i f t
    by_cases h1 : f.name = "" <;> by_cases h2 : t.name = "" <;> simp [h1, h2]
    cases RT.exists (Args.get merged.type) <;>
      cases (Args.get merged.injectedFieldInFrom).truthy <;>
      cases (Args.get merged.injectedFieldInTo).truthy <;> simp
  · intro r
    cases hf : Args.getRef merged.from <;> cases ht : Args.getRef merged.to <;>
      simp [JDLEntity.isValid]
    split_ifs <;> simp
    rintro rfl
    simp
  · intro h1 h2 h3
    simp [h1, h2, h3]

theorem constructor_succeeds_iff_witness :
    JDLEntity.isValid (Args.getRef (merge (defaults sampleTypes)
        { «from» := some (entity "Customer"), «to» := some (entity "Address"),
          type := some (.str "Unknown"), injectedFieldInFrom := some (.str "address") }).from) = true
    ∧ JDLEntity.isValid (Args.getRef (merge (defaults sampleTypes)
        { «from» := some (entity "Customer"), «to» := some (entity "Address"),
          type := some (.str "Unknown"), injectedFieldInFrom := some (.str "address") }).to) = true
    ∧ sampleTypes.exists (Args.get (merge (defaults sampleTypes)
        { «from» := some (entity "Customer"), «to» := some (entity "Address"),
          type := some (.str "Unknown"), injectedFieldInFrom := some (.str "address") }).type) = false
    ∧ JDLRelationship.new sampleTypes
        { «from» := some (entity "Customer"), «to» := some (entity "Address"),
          type := some (.str "Unknown"), injectedFieldInFrom := some (.str "address") }
      = .error (.built .NullPointer
          "The type, and at least one injected field must be passed.") :=
  ⟨rfl, rfl, rfl, (constructor_succeeds_iff sampleTypes _).2.2 rfl rfl rfl⟩

/-! ## Properties of `getId()` -/

theorem Value.present_eq_none (v : Value) : v.present = none ↔ v.truthy = false := by
  cases v <;> simp [Value.present, Value.truthy]

theorem Value.present_eq_some (v : Value) (s : String) :
    v.present = some s ↔ v = .str s ∧ s ≠ "" := by
  cases v with
  | str t =>
    by_cases ht : t = ""
    · subst ht
      simp [Value.present]
      rintro rfl
      simp
    · simp [Value.present, ht]
      rintro rfl
      exact ht
  | _ => simp [Value.present]

theorem getId_eq_identityOfComponents (r : JDLRelationship) :
    r.getId = identityOfComponents r.type.toJSString r.from.name r.injectedFieldInFrom.present
      r.to.name r.injectedFieldInTo.present := by
  unfold JDLRelationship.getId identityOfComponents
  cases hf : r.injectedFieldInFrom.present with
  | none =>
    have hf2 := (Value.present_eq_none _).1 hf
    cases ht : r.injectedFieldInTo.present with
    | none => simp [hf2, (Value.present_eq_none _).1 ht]
    | some t =>
      obtain ⟨h1, h2⟩ := (Value.present_eq_some _ _).1 ht
      simp [hf2, h1, (Value.truthy_str t).2 h2, Value.toJSString]
  | some f =>
    obtain ⟨g1, g2⟩ := (Value.present_eq_some _ _).1 hf
    cases ht : r.injectedFieldInTo.present with
    | none =>
      simp [g1, (Value.truthy_str f).2 g2, Value.toJSString, (Value.present_eq_none _).1 ht]
    | some t =>
      obtain ⟨h1, h2⟩ := (Value.present_eq_some _ _).1 ht
      simp [g1, h1, (Value.truthy_str f).2 g2, (Value.truthy_str t).2 h2, Value.toJSString]

/-- C4: for every instance `getId()` is the concatenation of the kind, `_`, `from.name`,
the injected field of `from` between braces if present, `_`, `to.name` and the injected
field of `to` if present; the configuration of kind ONE_TO_ONE from `Customer` to
`Address` with injected field `address` is constructed and has the identity
`<ONE_TO_ONE>_Customer{address}_Address`. -/
theorem getId_concatenation :
    (∀ r : JDLRelationship,
      r.getId = identityOfComponents r.type.toJSString r.from.name
        r.injectedFieldInFrom.present r.to.name r.injectedFieldInTo.present)
    ∧ (∀ RT : RelationshipTypes,
      (JDLRelationship.new RT
        { «from» := some (entity "Customer"), «to» := some (entity "Address"),
          type := some (.str RT.ONE_TO_ONE),
          injectedFieldInFrom := some (.str "address") }).map JDLRelationship.getId
        = .ok (RT.ONE_TO_ONE ++ "_Customer\x7baddress\x7d_Address"))
    ∧ (JDLRelationship.new sampleTypes
        { «from» := some (entity "Customer"), «to» := some (entity "Address"),
          type := some (.str "ONE_TO_ONE"),
          injectedFieldInFrom := some (.str "address") }).map JDLRelationship.getId
        = .ok "ONE_TO_ONE_Customer\x7baddress\x7d_Address" := by
  refine ⟨getId_eq_identityOfComponents, ?_, by decide⟩
  intro RT
  simp [JDLRelationship.new, merge, defaults, Args.get, Args.getRef, entity, JDLEntity.isValid,
    RelationshipTypes.exists, RelationshipTypes.values, Value.truthy, Except.map,
    JDLRelationship.getId, Value.toJSString]
  simp only [String.append_assoc]
  rfl

/-- C5: two instances with the same kind, the same endpoint names and the same injected
fields have the same `getId()`, whatever their comments are, and replacing a comment of
an instance leaves its `getId()` unchanged. -/
theorem getId_ignores_comments (a b : JDLRelationship)
    (hkind : a.type = b.type) (hfrom : a.from.name = b.from.name) (hto : a.to.name = b.to.name)
    (hif : a.injectedFieldInFrom = b.injectedFieldInFrom)
    (hit : a.injectedFieldInTo = b.injectedFieldInTo) :
    a.getId = b.getId
    ∧ (∀ c : Value, ({ a with commentInFrom := c }).getId = a.getId)
    ∧ (∀ c : Value, ({ a with commentInTo := c }).getId = a.getId) := by
  refine ⟨?_, fun _ => rfl, fun _ => rfl⟩
  simp only [JDLRelationship.getId, hkind, hfrom, hto, hif, hit]

theorem getId_ignores_comments_witness :
    (JDLRelationship.getId
        { «from» := ⟨"Customer"⟩, «to» := ⟨"Address"⟩, type := .str "ONE_TO_ONE",
          injectedFieldInFrom := .str "address", injectedFieldInTo := .null,
          commentInFrom := .str "the owner", commentInTo := .str "" }
      = JDLRelationship.getId
        { «from» := ⟨"Customer"⟩, «to» := ⟨"Address"⟩, type := .str "ONE_TO_ONE",
          injectedFieldInFrom := .str "address", injectedFieldInTo := .null,
          commentInFrom := .str "", commentInTo := .str "where they live" }) :=
  (getId_ignores_comments
    { «from» := ⟨"Customer"⟩, «to» := ⟨"Address"⟩, type := .str "ONE_TO_ONE",
      injectedFieldInFrom := .str "address", injectedFieldInTo := .null,
      commentInFrom := .str "the owner", commentInTo := .str "" }
    { «from» := ⟨"Customer"⟩, «to» := ⟨"Address"⟩, type := .str "ONE_TO_ONE",
      injectedFieldInFrom := .str "address", injectedFieldInTo := .null,
      commentInFrom := .str "", commentInTo := .str "where they live" }
    rfl rfl rfl rfl rfl).1

/-- Two lists that agree after appending, each cut at its first delimiter, are cut at
the same place. -/
theorem append_cons_inj (p : Char → Prop) :
    ∀ (F F' : List Char) (d d' : Char) (R R' : List Char),
      (∀ c ∈ F, ¬ p c) → (∀ c ∈ F', ¬ p c) → p d → p d' →
      F ++ d :: R = F' ++ d' :: R' → F = F' ∧ d :: R = d' :: R'
  | [], [], _, _, _, _, _, _, _, _, h => ⟨rfl, by simpa using h⟩
  | [], c :: F', d, _, _, _, _, hF', hd, _, h => by
    simp only [List.nil_append, List.cons_append, List.cons.injEq] at h
    exact absurd (h.1 ▸ hd) (hF' c (List.mem_cons_self _ _))
  | c :: F, [], _, d', _, _, hF, _, _, hd', h => by
    simp only [List.nil_append, List.cons_append, List.cons.injEq] at h
    exact absurd (h.1 ▸ hd') (hF c (List.mem_cons_self _ _))
  | c :: F, c' :: F', d, d', R, R', hF, hF', hd, hd', h => by
    simp only [List.cons_append, List.cons.injEq] at h
    obtain ⟨h1, h2⟩ := append_cons_inj p F F' d d' R R'
      (fun x hx => hF x (List.mem_cons_of_mem _ hx))
      (fun x hx => hF' x (List.mem_cons_of_mem _ hx)) hd hd' h.2
    exact ⟨by rw [h.1, h1], h2⟩

/-- What the two guards of the constructor establish for the returned instance. -/
theorem Constructed.guards {RT : RelationshipTypes} {r : JDLRelationship}
    (h : Constructed RT r) :
    r.from.name ≠ "" ∧ r.to.name ≠ "" ∧ RT.exists r.type = true
      ∧ (r.injectedFieldInFrom.truthy = true ∨ r.injectedFieldInTo.truthy = true) := by
  obtain ⟨args, h⟩ := h
  simp only [JDLRelationship.new] at h
  generalize merge (defaults RT) args = merged at h
  cases hf : Args.getRef merged.from <;> cases ht : Args.getRef merged.to <;>
    simp [hf, ht, JDLEntity.isValid] at h
  split_ifs at h with h1 h2
  simp only [Except.ok.injEq] at h
  subst h
  simp only [not_or, not_and, Bool.not_eq_false] at h1 h2
  refine ⟨h1.1, h1.2, h2.1, ?_⟩
  by_cases h3 : (Args.get merged.injectedFieldInFrom).truthy = true
  · exact Or.inl h3
  · exact Or.inr (h2.2 (by simpa using h3))

theorem RelationshipTypes.exists_iff (RT : RelationshipTypes) (v : Value) :
    RT.exists v = true ↔ ∃ k ∈ RT.values, v = .str k := by
  cases v <;> simp [RelationshipTypes.exists]

theorem getId_data (r : JDLRelationship) :
    r.getId.data = r.type.toJSString.data ++ ('_' :: (r.from.name.data
      ++ ((if r.injectedFieldInFrom.truthy then
            '\x7b' :: (r.injectedFieldInFrom.toJSString.data ++ ['\x7d']) else [])
        ++ ('_' :: (r.to.name.data
          ++ (if r.injectedFieldInTo.truthy then r.injectedFieldInTo.toJSString.data
              else [])))))) := by
  unfold JDLRelationship.getId
  cases r.injectedFieldInFrom.truthy <;> cases r.injectedFieldInTo.truthy <;>
    simp [String.data_append]

theorem JDLRelationship.delimiterFree_iff (r : JDLRelationship) :
    r.delimiterFree = true ↔
      (∀ c ∈ r.from.name.data, ¬ (c = '_' ∨ c = '\x7b'))
        ∧ (∀ c ∈ r.injectedFieldInFrom.toJSString.data, ¬ (c = '\x7d')) := by
  simp only [JDLRelationship.delimiterFree, Bool.and_eq_true, Bool.not_eq_true',
    List.contains_eq_any_beq, List.any_eq_false, beq_iff_eq, not_or]
  constructor
  · rintro ⟨⟨h1, h2⟩, h3⟩
    exact ⟨fun c hc => ⟨fun e => h1 c hc e.symm, fun e => h2 c hc e.symm⟩,
      fun c hc e => h3 c hc e.symm⟩
  · rintro ⟨h1, h2⟩
    exact ⟨⟨fun c hc e => (h1 c hc).1 e.symm, fun c hc e => (h1 c hc).2 e.symm⟩,
      fun c hc e => h2 c hc e.symm⟩

theorem Value.present_getD_data (v : Value) :
    (v.present.getD "").data = if v.truthy then v.toJSString.data else [] := by
  cases v with
  | str s => by_cases hs : s = "" <;> simp [Value.present, Value.truthy, Value.toJSString, hs]
  | _ => simp [Value.present, Value.truthy]

theorem Value.present_eq_of_data {v w : Value} (hv : v.truthy = true) (hw : w.truthy = true)
    (h : v.toJSString.data = w.toJSString.data) : v.present = w.present := by
  obtain ⟨s, rfl, hs⟩ := (Value.truthy_iff v).1 hv
  obtain ⟨t, rfl, ht⟩ := (Value.truthy_iff w).1 hw
  have : s = t := String.ext h
  subst this
  rfl

theorem comparable_of_append_underscore (x y R R' : List Char)
    (h : x ++ '_' :: R = y ++ '_' :: R') :
    (x ++ ['_']) <+: (y ++ ['_']) ∨ (y ++ ['_']) <+: (x ++ ['_']) := by
  have h1 : (x ++ ['_']) <+: (x ++ '_' :: R) := ⟨R, by simp⟩
  have h2 : (y ++ ['_']) <+: (x ++ '_' :: R) := ⟨R', by simp [h]⟩
  exact List.prefix_or_prefix_of_prefix h1 h2

/-- Equal identities of two instances of recognized kind that are free of delimiters
agree on the kind, on `from.name`, on the injected field of `from` and on what follows
the second underscore. -/
theorem getId_cut (RT : RelationshipTypes) (a b : JDLRelationship) (hRT : RT.Unambiguous)
    (ha : RT.exists a.type = true) (hb : RT.exists b.type = true)
    (hda : a.delimiterFree = true) (hdb : b.delimiterFree = true)
    (h : a.getId = b.getId) :
    a.type = b.type ∧ a.from.name = b.from.name
      ∧ a.injectedFieldInFrom.present = b.injectedFieldInFrom.present
      ∧ a.to.name ++ a.injectedFieldInTo.present.getD ""
          = b.to.name ++ b.injectedFieldInTo.present.getD "" := by
  have hd := congrArg String.data h
  rw [getId_data, getId_data] at hd
  obtain ⟨ka, hka, ea⟩ := (RT.exists_iff _).1 ha
  obtain ⟨kb, hkb, eb⟩ := (RT.exists_iff _).1 hb
  obtain ⟨hFa, hXa⟩ := (a.delimiterFree_iff).1 hda
  obtain ⟨hFb, hXb⟩ := (b.delimiterFree_iff).1 hdb
  rw [ea, eb] at hd ⊢
  simp only [show ∀ s, (Value.str s).toJSString = s from fun _ => rfl] at hd
  -- the kind
  have hk : ka = kb := by
    rcases comparable_of_append_underscore _ _ _ _ hd with h3 | h3
    · exact hRT ka hka kb hkb h3
    · exact (hRT kb hkb ka hka h3).symm
  subst hk
  have hd := List.cons_injective (List.append_cancel_left hd)
  refine ⟨rfl, ?_⟩
  -- `from.name` and its injected field
  cases hta : a.injectedFieldInFrom.truthy <;> cases htb : b.injectedFieldInFrom.truthy <;>
    simp only [hta, htb, if_true, if_false, List.nil_append, List.cons_append, Bool.false_eq_true]
      at hd
  · obtain ⟨h1, h2⟩ := append_cons_inj _ _ _ _ _ _ _ hFa hFb (Or.inl rfl) (Or.inl rfl) hd
    refine ⟨String.ext h1, ?_, ?_⟩
    · rw [(Value.present_eq_none _).2 hta, (Value.present_eq_none _).2 htb]
    · apply String.ext
      simpa [String.data_append, Value.present_getD_data] using List.cons_injective h2
  · obtain ⟨_, h2⟩ := append_cons_inj _ _ _ _ _ _ _ hFa hFb (Or.inl rfl) (Or.inr rfl) hd
    simp at h2
  · obtain ⟨_, h2⟩ := append_cons_inj _ _ _ _ _ _ _ hFa hFb (Or.inr rfl) (Or.inl rfl) hd
    simp at h2
  · obtain ⟨h1, h2⟩ := append_cons_inj _ _ _ _ _ _ _ hFa hFb (Or.inr rfl) (Or.inr rfl) hd
    have h2 := List.cons_injective h2
    simp only [List.append_assoc, List.singleton_append] at h2
    obtain ⟨h3, h4⟩ := append_cons_inj (fun c => c = '\x7d') _ _ _ _ _ _ hXa hXb rfl rfl h2
    refine ⟨String.ext h1, Value.present_eq_of_data hta htb h3, ?_⟩
    apply String.ext
    simpa [String.data_append, Value.present_getD_data] using
      List.cons_injective (List.cons_injective h4)

/-- C6, as stated, fails, at two pairs of constructed instances with equal `getId()`:
`Job_History to Employee{jobs}` and `Job to History_Employee{jobs}` differ in both
endpoint names (a name may contain the separator `_`); `Customer{address} to Address{es}`
and `Customer{address} to Addresses` differ in `to.name` and in `injectedFieldInTo`
(nothing separates `to.name` from the injected field of `to`). -/
theorem getId_not_injective :
    (JDLRelationship.new sampleTypes argsUnderscoreInFrom = .ok relUnderscoreInFrom
      ∧ JDLRelationship.new sampleTypes argsUnderscoreInTo = .ok relUnderscoreInTo
      ∧ relUnderscoreInFrom.getId = "MANY_TO_ONE_Job_History_Employeejobs"
      ∧ relUnderscoreInTo.getId = "MANY_TO_ONE_Job_History_Employeejobs"
      ∧ ¬ (relUnderscoreInFrom.getId = relUnderscoreInTo.getId ↔
            relUnderscoreInFrom.type = relUnderscoreInTo.type
            ∧ relUnderscoreInFrom.from.name = relUnderscoreInTo.from.name
            ∧ relUnderscoreInFrom.to.name = relUnderscoreInTo.to.name
            ∧ relUnderscoreInFrom.injectedFieldInFrom = relUnderscoreInTo.injectedFieldInFrom
            ∧ relUnderscoreInFrom.injectedFieldInTo = relUnderscoreInTo.injectedFieldInTo))
    ∧ (JDLRelationship.new sampleTypes argsAddressEs = .ok relAddressEs
      ∧ JDLRelationship.new sampleTypes argsAddresses = .ok relAddresses
      ∧ relAddressEs.getId = "ONE_TO_ONE_Customer\x7baddress\x7d_Addresses"
      ∧ relAddresses.getId = "ONE_TO_ONE_Customer\x7baddress\x7d_Addresses"
      ∧ ¬ (relAddressEs.getId = relAddresses.getId ↔
            relAddressEs.type = relAddresses.type
            ∧ relAddressEs.from.name = relAddresses.from.name
            ∧ relAddressEs.to.name = relAddresses.to.name
            ∧ relAddressEs.injectedFieldInFrom = relAddresses.injectedFieldInFrom
            ∧ relAddressEs.injectedFieldInTo = relAddresses.injectedFieldInTo)) := by
  decide

/-- C6, amended: any two constructed instances that agree on the kind, on `from.name`, on
`to.name` and on each injected field (equal, or absent in both) have equal identities;
conversely, when no kind constant followed by `_` begins another one, `from.name` has
neither `_` nor an opening brace and the injected field of `from` has no closing brace,
equal identities force equal kinds, equal `from.name` and injected fields of `from` that
are equal or absent in both. -/
theorem getId_determined_by_components (RT : RelationshipTypes) (a b : JDLRelationship)
    (ha : Constructed RT a) (hb : Constructed RT b) :
    (a.type = b.type ∧ a.from.name = b.from.name ∧ a.to.name = b.to.name
        ∧ a.injectedFieldInFrom.present = b.injectedFieldInFrom.present
        ∧ a.injectedFieldInTo.present = b.injectedFieldInTo.present → a.getId = b.getId)
    ∧ (RT.Unambiguous → a.delimiterFree = true → b.delimiterFree = true →
        a.getId = b.getId →
          a.type = b.type ∧ a.from.name = b.from.name
            ∧ a.injectedFieldInFrom.present = b.injectedFieldInFrom.present) := by
  constructor
  · rintro ⟨h1, h2, h3, h4, h5⟩
    rw [getId_eq_identityOfComponents a, getId_eq_identityOfComponents b, h1, h2, h3, h4, h5]
  · intro hRT hda hdb h
    obtain ⟨h1, h2, h3, -⟩ := getId_cut RT a b hRT ha.guards.2.2.1 hb.guards.2.2.1 hda hdb h
    exact ⟨h1, h2, h3⟩

theorem getId_determined_by_components_witness :
    (Constructed sampleTypes relUnderscoreInFrom
      ∧ Constructed sampleTypes relUnderscoreInFromEmpty
      ∧ relUnderscoreInFrom.delimiterFree = false
      ∧ relUnderscoreInFrom.injectedFieldInFrom ≠ relUnderscoreInFromEmpty.injectedFieldInFrom
      ∧ relUnderscoreInFrom.getId = relUnderscoreInFromEmpty.getId)
    ∧ (sampleTypes.Unambiguous ∧ Constructed sampleTypes relAddressEs
      ∧ Constructed sampleTypes relAddresses
      ∧ relAddressEs.delimiterFree = true ∧ relAddresses.delimiterFree = true
      ∧ relAddressEs.getId = relAddresses.getId
      ∧ relAddressEs.type = relAddresses.type
      ∧ relAddressEs.from.name = relAddresses.from.name
      ∧ relAddressEs.injectedFieldInFrom.present
          = relAddresses.injectedFieldInFrom.present) :=
  ⟨⟨⟨argsUnderscoreInFrom, by decide⟩, ⟨argsUnderscoreInFromEmpty, by decide⟩, by decide,
      by decide,
      (getId_determined_by_components sampleTypes relUnderscoreInFrom
        relUnderscoreInFromEmpty ⟨argsUnderscoreInFrom, by decide⟩
        ⟨argsUnderscoreInFromEmpty, by decide⟩).1 ⟨rfl, rfl, rfl, rfl, rfl⟩⟩,
    ⟨by decide, ⟨argsAddressEs, by decide⟩, ⟨argsAddresses, by decide⟩, by decide, by decide,
      by decide,
      (getId_determined_by_components sampleTypes relAddressEs relAddresses
        ⟨argsAddressEs, by decide⟩ ⟨argsAddresses, by decide⟩).2
        (by decide) (by decide) (by decide) (by decide)⟩⟩

/-! ## Properties of `validate()` -/

/-- C7: for every instance of kind ONE_TO_ONE, `validate()` throws `MalformedAssociation`
if `injectedFieldInFrom` is falsy (`undefined`, `null` or empty), and returns normally,
writing nothing, if it is a non-empty string, whatever `injectedFieldInTo` is. -/
theorem validate_ONE_TO_ONE (RT : RelationshipTypes) (r : JDLRelationship)
    (hRT : RT.WellFormed) (hk : r.type = .str RT.ONE_TO_ONE) :
    (r.injectedFieldInFrom.truthy = false →
      (r.validate RT).outcome = .error (.built .MalformedAssociation
        ("In the One-to-One relationship from " ++ r.from.name ++ " to " ++ r.to.name ++ ", "
          ++ "the source entity must possess the destination in a One-to-One "
          ++ " relationship, or you must invert the direction of the relationship.")))
    ∧ (r.injectedFieldInFrom.truthy = true →
      (r.validate RT).outcome = .ok () ∧ (r.validate RT).console = []) := by
  obtain ⟨h1, -⟩ := hRT
  have ht := (Value.truthy_str _).2 h1
  constructor <;> intro h <;> simp [JDLRelationship.validate, hk, h, ht]

theorem validate_ONE_TO_ONE_witness :
    sampleTypes.WellFormed
    ∧ (JDLRelationship.validate sampleTypes
        { «from» := ⟨"Customer"⟩, «to» := ⟨"Address"⟩, type := .str "ONE_TO_ONE",
          injectedFieldInFrom := .null, injectedFieldInTo := .str "customer",
          commentInFrom := .str "", commentInTo := .str "" }).outcome
      = .error (.built .MalformedAssociation
        ("In the One-to-One relationship from Customer to Address, "
          ++ "the source entity must possess the destination in a One-to-One "
          ++ " relationship, or you must invert the direction of the relationship.")) :=
  ⟨by decide, (validate_ONE_TO_ONE sampleTypes
        { «from» := ⟨"Customer"⟩, «to» := ⟨"Address"⟩, type := .str "ONE_TO_ONE",
          injectedFieldInFrom := .null, injectedFieldInTo := .str "customer",
          commentInFrom := .str "", commentInTo := .str "" } (by decide) rfl).1 rfl⟩

/-- C8: for every constructed instance of kind MANY_TO_ONE, `validate()` throws
`MalformedAssociation` iff both injected fields are present, and returns normally iff
exactly one of them is present. -/
theorem validate_MANY_TO_ONE (RT : RelationshipTypes) (r : JDLRelationship)
    (hRT : RT.WellFormed) (hc : Constructed RT r) (hk : r.type = .str RT.MANY_TO_ONE) :
    ((r.validate RT).outcome = .error (.built .MalformedAssociation
        ("In the Many-to-One relationship from " ++ r.from.name ++ " to " ++ r.to.name ++ ", "
          ++ "only unidirectionality is supported for a Many-to-One relationship, "
          ++ "you should create a bidirectional One-to-Many relationship instead."))
      ↔ (r.injectedFieldInFrom.truthy = true ∧ r.injectedFieldInTo.truthy = true))
    ∧ ((∃ e, (r.validate RT).outcome = .error e)
      ↔ (r.injectedFieldInFrom.truthy = true ∧ r.injectedFieldInTo.truthy = true))
    ∧ ((r.validate RT).outcome = .ok ()
      ↔ ((r.injectedFieldInFrom.truthy = true ∧ r.injectedFieldInTo.truthy = false)
        ∨ (r.injectedFieldInFrom.truthy = false ∧ r.injectedFieldInTo.truthy = true))) := by
  obtain ⟨-, -, h3, -, -, h13, -, h23, -, -⟩ := hRT
  have ht := (Value.truthy_str _).2 h3
  have hpresent := hc.guards.2.2.2
  cases hf : r.injectedFieldInFrom.truthy <;> cases hto : r.injectedFieldInTo.truthy <;>
    simp [JDLRelationship.validate, hk, ht, hf, hto, h13.symm, h23.symm]
  simp [hf, hto] at hpresent

theorem validate_MANY_TO_ONE_witness :
    sampleTypes.WellFormed
    ∧ Constructed sampleTypes
        { «from» := ⟨"Order"⟩, «to» := ⟨"Customer"⟩, type := .str "MANY_TO_ONE",
          injectedFieldInFrom := .str "customer", injectedFieldInTo := .str "orders",
          commentInFrom := .str "", commentInTo := .str "" }
    ∧ (∃ e, (JDLRelationship.validate sampleTypes
        { «from» := ⟨"Order"⟩, «to» := ⟨"Customer"⟩, type := .str "MANY_TO_ONE",
          injectedFieldInFrom := .str "customer", injectedFieldInTo := .str "orders",
          commentInFrom := .str "", commentInTo := .str "" }).outcome = .error e) :=
  ⟨by decide,
    ⟨{ «from» := some (entity "Order"), «to» := some (entity "Customer"),
        type := some (.str "MANY_TO_ONE"), injectedFieldInFrom := some (.str "customer"),
        injectedFieldInTo := some (.str "orders") }, by decide⟩,
    (validate_MANY_TO_ONE sampleTypes
        { «from» := ⟨"Order"⟩, «to» := ⟨"Customer"⟩, type := .str "MANY_TO_ONE",
          injectedFieldInFrom := .str "customer", injectedFieldInTo := .str "orders",
          commentInFrom := .str "", commentInTo := .str "" }
        (by decide)
        ⟨{ «from» := some (entity "Order"), «to» := some (entity "Customer"),
            type := some (.str "MANY_TO_ONE"), injectedFieldInFrom := some (.str "customer"),
            injectedFieldInTo := some (.str "orders") }, by decide⟩
        rfl).2.1.2 ⟨rfl, rfl⟩⟩

/-- C9: for every instance of kind MANY_TO_MANY, `validate()` throws
`MalformedAssociation` iff at least one injected field is absent, and returns normally,
writing nothing, when both are present. -/
theorem validate_MANY_TO_MANY (RT : RelationshipTypes) (r : JDLRelationship)
    (hRT : RT.WellFormed) (hk : r.type = .str RT.MANY_TO_MANY) :
    ((r.validate RT).outcome = .error (.built .MalformedAssociation
        ("In the Many-to-Many relationship from " ++ r.from.name ++ " to " ++ r.to.name ++ ", "
          ++ "only bidirectionality is supported for a Many-to-Many relationship."))
      ↔ (r.injectedFieldInFrom.truthy = false ∨ r.injectedFieldInTo.truthy = false))
    ∧ ((∃ e, (r.validate RT).outcome = .error e)
      ↔ (r.injectedFieldInFrom.truthy = false ∨ r.injectedFieldInTo.truthy = false))
    ∧ (r.injectedFieldInFrom.truthy = true → r.injectedFieldInTo.truthy = true →
        (r.validate RT).outcome = .ok () ∧ (r.validate RT).console = []) := by
  obtain ⟨-, -, -, h4, -, -, h14, -, h24, h34⟩ := hRT
  have ht := (Value.truthy_str _).2 h4
  cases hf : r.injectedFieldInFrom.truthy <;> cases hto : r.injectedFieldInTo.truthy <;>
    simp [JDLRelationship.validate, hk, ht, hf, hto, h14.symm, h24.symm, h34.symm]

theorem validate_MANY_TO_MANY_witness :
    sampleTypes.WellFormed
    ∧ (JDLRelationship.validate sampleTypes
        { «from» := ⟨"Student"⟩, «to» := ⟨"Course"⟩, type := .str "MANY_TO_MANY",
          injectedFieldInFrom := .str "courses", injectedFieldInTo := .str "students",
          commentInFrom := .str "", commentInTo := .str "" }).outcome = .ok ()
    ∧ (JDLRelationship.validate sampleTypes
        { «from» := ⟨"Student"⟩, «to» := ⟨"Course"⟩, type := .str "MANY_TO_MANY",
          injectedFieldInFrom := .str "courses", injectedFieldInTo := .str "students",
          commentInFrom := .str "", commentInTo := .str "" }).console = [] :=
  ⟨by decide, (validate_MANY_TO_MANY sampleTypes
        { «from» := ⟨"Student"⟩, «to» := ⟨"Course"⟩, type := .str "MANY_TO_MANY",
          injectedFieldInFrom := .str "courses", injectedFieldInTo := .str "students",
          commentInFrom := .str "", commentInTo := .str "" } (by decide) rfl).2.2 rfl rfl⟩

/-- C10: for every instance of kind ONE_TO_MANY, `validate()` returns normally; it writes
exactly one warning when at least one injected field is absent and nothing when both are
present; the warning mentions `from.name`, `to.name` and the kind (as `One-to-Many`). -/
theorem validate_ONE_TO_MANY (RT : RelationshipTypes) (r : JDLRelationship)
    (hRT : RT.WellFormed) (hk : r.type = .str RT.ONE_TO_MANY) :
    (r.validate RT).outcome = .ok ()
    ∧ ((r.injectedFieldInFrom.truthy = false ∨ r.injectedFieldInTo.truthy = false) →
        ∃ w, (r.validate RT).console = [w]
          ∧ w = "In the One-to-Many relationship from " ++ r.from.name ++ " to  "
              ++ r.to.name ++ ", "
              ++ "only bidirectionality is supported for a One-to-Many association. "
              ++ "The other side will be automatically added."
          ∧ Mentions w r.from.name ∧ Mentions w r.to.name ∧ Mentions w "One-to-Many")
    ∧ (r.injectedFieldInFrom.truthy = true → r.injectedFieldInTo.truthy = true →
        (r.validate RT).console = []) := by
  obtain ⟨-, h2, -, -, h12, -, -, -, -, -⟩ := hRT
  have ht := (Value.truthy_str _).2 h2
  refine ⟨?_, ?_, ?_⟩
  · cases hf : r.injectedFieldInFrom.truthy <;> cases hto : r.injectedFieldInTo.truthy <;>
      simp [JDLRelationship.validate, hk, ht, hf, hto, h12.symm]
  · intro h
    refine ⟨_, ?_, rfl, ?_, ?_, ?_⟩
    · rcases h with h | h <;> simp [JDLRelationship.validate, hk, ht, h, h12.symm]
    · exact ⟨"In the One-to-Many relationship from ".data,
        (" to  " ++ r.to.name ++ ", "
          ++ "only bidirectionality is supported for a One-to-Many association. "
          ++ "The other side will be automatically added.").data,
        by simp [String.data_append]⟩
    · exact ⟨("In the One-to-Many relationship from " ++ r.from.name ++ " to  ").data,
        (", " ++ "only bidirectionality is supported for a One-to-Many association. "
          ++ "The other side will be automatically added.").data,
        by simp [String.data_append]⟩
    · exact ⟨"In the ".data,
        (" relationship from " ++ r.from.name ++ " to  " ++ r.to.name ++ ", "
          ++ "only bidirectionality is supported for a One-to-Many association. "
          ++ "The other side will be automatically added.").data,
        by simp [String.data_append]⟩
  · intro hf hto
    simp [JDLRelationship.validate, hk, ht, hf, hto, h12.symm]

theorem validate_ONE_TO_MANY_witness :
    sampleTypes.WellFormed
    ∧ (JDLRelationship.validate sampleTypes
        { «from» := ⟨"Owner"⟩, «to» := ⟨"Car"⟩, type := .str "ONE_TO_MANY",
          injectedFieldInFrom := .str "cars", injectedFieldInTo := .null,
          commentInFrom := .str "", commentInTo := .str "" }).outcome = .ok ()
    ∧ (JDLRelationship.validate sampleTypes
        { «from» := ⟨"Owner"⟩, «to» := ⟨"Car"⟩, type := .str "ONE_TO_MANY",
          injectedFieldInFrom := .str "cars", injectedFieldInTo := .null,
          commentInFrom := .str "", commentInTo := .str "" }).console
      = ["In the One-to-Many relationship from Owner to  Car, only bidirectionality is "
          ++ "supported for a One-to-Many association. The other side will be "
          ++ "automatically added."] :=
  ⟨by decide, (validate_ONE_TO_MANY sampleTypes
        { «from» := ⟨"Owner"⟩, «to» := ⟨"Car"⟩, type := .str "ONE_TO_MANY",
          injectedFieldInFrom := .str "cars", injectedFieldInTo := .null,
          commentInFrom := .str "", commentInTo := .str "" } (by decide) rfl).1, by decide⟩

/-- An instance whose kind is not recognized matches no `case` label of the `switch`. -/
theorem not_exists_ne_constants {RT : RelationshipTypes} {v : Value}
    (h : RT.exists v = false) :
    v ≠ .str RT.ONE_TO_ONE ∧ v ≠ .str RT.ONE_TO_MANY ∧ v ≠ .str RT.MANY_TO_ONE
      ∧ v ≠ .str RT.MANY_TO_MANY := by
  cases v with
  | str s =>
    simp only [RelationshipTypes.exists, RelationshipTypes.values, List.contains_eq_any_beq,
      List.any_cons, List.any_nil, Bool.or_false, Bool.or_eq_false_iff, beq_eq_false_iff_ne,
      ne_eq] at h
    simp only [ne_eq, Value.str.injEq]
    exact ⟨h.1, h.2.1, h.2.2.1, h.2.2.2⟩
  | _ => simp

/-- C11, as stated, fails: for an instance whose kind is `null` or the empty string,
`validate()` throws `NullPointer`, not `WrongAssociation`; for the unrecognized kind
`Unknown` it throws the `ReferenceError` of the undeclared `association`, not
`WrongAssociation` either. -/
theorem validate_unrecognized_kind_not_WrongAssociation :
    (sampleTypes.exists .null = false
      ∧ (JDLRelationship.validate sampleTypes
          { «from» := ⟨"Customer"⟩, «to» := ⟨"Address"⟩, type := .null,
            injectedFieldInFrom := .str "address", injectedFieldInTo := .null,
            commentInFrom := .str "", commentInTo := .str "" }).outcome
        = .error (.built .NullPointer "The association must not be nil."))
    ∧ (sampleTypes.exists (.str "") = false
      ∧ (JDLRelationship.validate sampleTypes
          { «from» := ⟨"Customer"⟩, «to» := ⟨"Address"⟩, type := .str "",
            injectedFieldInFrom := .str "address", injectedFieldInTo := .null,
            commentInFrom := .str "", commentInTo := .str "" }).outcome
        = .error (.built .NullPointer "The association must not be nil."))
    ∧ (sampleTypes.exists (.str "Unknown") = false
      ∧ (JDLRelationship.validate sampleTypes
          { «from» := ⟨"Customer"⟩, «to» := ⟨"Address"⟩, type := .str "Unknown",
            injectedFieldInFrom := .str "address", injectedFieldInTo := .null,
            commentInFrom := .str "", commentInTo := .str "" }).outcome
        = .error (.referenceError "association")) := by
  decide

/-- C11, amended: for every instance whose kind is not one of the four recognized kinds,
`validate()` does not return normally and writes no warning; when the kind is absent or
empty (`undefined`, `null` or the empty string) what it throws is `NullPointer` with the
message `The association must not be nil.`. -/
theorem validate_unrecognized_kind (RT : RelationshipTypes) (r : JDLRelationship)
    (h : RT.exists r.type = false) :
    (∃ e, (r.validate RT).outcome = .error e)
    ∧ (r.validate RT).console = []
    ∧ (r.type.truthy = false →
        (r.validate RT).outcome
          = .error (.built .NullPointer "The association must not be nil.")) := by
  obtain ⟨h1, h2, h3, h4⟩ := not_exists_ne_constants h
  cases ht : r.type.truthy <;> simp [JDLRelationship.validate, ht, h1, h2, h3, h4]

theorem validate_unrecognized_kind_witness :
    sampleTypes.exists .undefined = false
    ∧ (JDLRelationship.validate sampleTypes
        { «from» := ⟨"Customer"⟩, «to» := ⟨"Address"⟩, type := .undefined,
          injectedFieldInFrom := .str "address", injectedFieldInTo := .null,
          commentInFrom := .str "", commentInTo := .str "" }).outcome
      = .error (.built .NullPointer "The association must not be nil.") :=
  ⟨rfl, (validate_unrecognized_kind sampleTypes
        { «from» := ⟨"Customer"⟩, «to» := ⟨"Address"⟩, type := .undefined,
          injectedFieldInFrom := .str "address", injectedFieldInTo := .null,
          commentInFrom := .str "", commentInTo := .str "" } rfl).2.2 rfl⟩

/-! ## Properties of `toString()` -/

/-- The shape of every rendering: the opening, the comment block of `from` if its comment
is truthy, the source side, the word `to`, then either a blank or a line break followed
by the comment block of `to`, the destination side, and the closing brace. -/
theorem toString_shape (r : JDLRelationship) :
    r.toString = r.opening
      ++ (if r.commentInFrom.truthy then commentBlock r.commentInFrom.toJSString else "")
      ++ r.fromSide ++ " to"
      ++ (if r.commentInTo.truthy then "\n  " ++ commentBlock r.commentInTo.toJSString else " ")
      ++ r.toSide ++ "\n\x7d" := by
  have e : ∀ X : String, "\n  " ++ ("/**\n   * " ++ X) = "\n  /**\n   * " ++ X :=
    fun X => by rw [← String.append_assoc]; rfl
  simp only [JDLRelationship.toString, JDLRelationship.opening, JDLRelationship.fromSide,
    JDLRelationship.toSide, commentBlock]
  cases r.commentInFrom.truthy <;> cases r.injectedFieldInFrom.truthy <;>
    cases r.commentInTo.truthy <;> cases r.injectedFieldInTo.truthy <;>
    simp [String.append_assoc, e]

theorem fromSide_eq (r : JDLRelationship) :
    r.fromSide = r.from.name
      ++ (match r.injectedFieldInFrom.present with
          | some f => "\x7b" ++ f ++ "\x7d"
          | none => "") := by
  unfold JDLRelationship.fromSide
  cases hf : r.injectedFieldInFrom.present with
  | none => simp [(Value.present_eq_none _).1 hf]
  | some f =>
    obtain ⟨g1, g2⟩ := (Value.present_eq_some _ _).1 hf
    simp [g1, (Value.truthy_str f).2 g2, Value.toJSString]

theorem toSide_eq (r : JDLRelationship) :
    r.toSide = r.to.name
      ++ (match r.injectedFieldInTo.present with
          | some t => "\x7b" ++ t ++ "\x7d"
          | none => "") := by
  unfold JDLRelationship.toSide
  cases hf : r.injectedFieldInTo.present with
  | none => simp [(Value.present_eq_none _).1 hf]
  | some f =>
    obtain ⟨g1, g2⟩ := (Value.present_eq_some _ _).1 hf
    simp [g1, (Value.truthy_str f).2 g2, Value.toJSString]

/-- C12: for every instance whose two comments are empty (falsy), `toString()` is
`relationship <kind> {`, a line with `from.name`, its injected field between braces if
present, ` to `, `to.name` and its injected field between braces if present, and the
closing brace; the MANY_TO_MANY relationship from `Student` to `Course` with injected
fields `courses` and `students` is constructed and renders as
`relationship <MANY_TO_MANY> {\n  Student{courses} to Course{students}\n}`. -/
theorem toString_without_comments :
    (∀ r : JDLRelationship, r.commentInFrom.truthy = false → r.commentInTo.truthy = false →
      r.toString = renderingOfComponents r.type.toJSString r.from.name
        r.injectedFieldInFrom.present r.to.name r.injectedFieldInTo.present)
    ∧ (∀ RT : RelationshipTypes,
      (JDLRelationship.new RT
        { «from» := some (entity "Student"), «to» := some (entity "Course"),
          type := some (.str RT.MANY_TO_MANY),
          injectedFieldInFrom := some (.str "courses"),
          injectedFieldInTo := some (.str "students") }).map JDLRelationship.toString
        = .ok ("relationship " ++ RT.MANY_TO_MANY
            ++ " \x7b\n  Student\x7bcourses\x7d to Course\x7bstudents\x7d\n\x7d")) := by
  constructor
  · intro r hf ht
    rw [toString_shape, fromSide_eq, toSide_eq]
    simp only [hf, ht, JDLRelationship.opening, renderingOfComponents]
    simp [String.append_assoc]
  · intro RT
    simp [JDLRelationship.new, merge, defaults, Args.get, Args.getRef, entity,
      JDLEntity.isValid, RelationshipTypes.exists, RelationshipTypes.values, Value.truthy,
      Except.map, JDLRelationship.toString, Value.toJSString]
    simp only [String.append_assoc]
    rfl

theorem toString_without_comments_witness :
    relStudentCourse.commentInFrom.truthy = false
    ∧ relStudentCourse.commentInTo.truthy = false
    ∧ relStudentCourse.toString
      = renderingOfComponents "MANY_TO_MANY" "Student" (some "courses") "Course"
          (some "students") :=
  ⟨rfl, rfl, toString_without_comments.1 relStudentCourse rfl rfl⟩

/-- C13: in `toString()` the comment block of `from` is emitted iff `commentInFrom` is
truthy and stands right before `from.name`; the comment block of `to` is emitted iff
`commentInTo` is truthy and stands after the word `to`, right before `to.name`; what is
outside the blocks is the rendering of the instance without comments, except that the
blank after `to` is a line break when the block of `to` is emitted. -/
theorem toString_comment_blocks :
    (∀ r : JDLRelationship,
      r.toString = r.opening
        ++ (if r.commentInFrom.truthy then commentBlock r.commentInFrom.toJSString else "")
        ++ r.fromSide ++ " to"
        ++ (if r.commentInTo.truthy then "\n  " ++ commentBlock r.commentInTo.toJSString
            else " ")
        ++ r.toSide ++ "\n\x7d"
      ∧ r.withoutComments.toString
          = r.opening ++ "" ++ r.fromSide ++ " to" ++ " " ++ r.toSide ++ "\n\x7d"
      ∧ r.from.name.data <+: r.fromSide.data
      ∧ r.to.name.data <+: r.toSide.data)
    ∧ relStudentCourseCommented.toString
        = "relationship MANY_TO_MANY \x7b\n  /**\n   * the students\n   */\n  "
          ++ "Student\x7bcourses\x7d to\n  /**\n   * the courses\n   */\n  "
          ++ "Course\x7bstudents\x7d\n\x7d"
    ∧ relStudentCourseCommented.withoutComments.toString
        = "relationship MANY_TO_MANY \x7b\n  Student\x7bcourses\x7d to "
          ++ "Course\x7bstudents\x7d\n\x7d" := by
  refine ⟨fun r => ⟨toString_shape r, ?_, ?_, ?_⟩, by decide, by decide⟩
  · rw [toString_shape]
    rfl
  · unfold JDLRelationship.fromSide
    exact ⟨_, (String.data_append _ _).symm⟩
  · unfold JDLRelationship.toSide
    exact ⟨_, (String.data_append _ _).symm⟩

/-! ## Messages of the failures -/

/-- C14, as stated, fails: the `NullPointer` failure of the constructor for the
MANY_TO_MANY relationship from `Customer` to `Address` without injected field, and its
`InvalidObject` failure for `Customer` and an entity without name, carry fixed messages
that mention neither the names of the entities nor the kind. -/
theorem constructor_messages_name_nothing :
    (JDLRelationship.new sampleTypes
        { «from» := some (entity "Customer"), «to» := some (entity "Address"),
          type := some (.str "MANY_TO_MANY") }
      = .error (.built .NullPointer
          "The type, and at least one injected field must be passed.")
      ∧ ¬ Mentions "The type, and at least one injected field must be passed." "Customer"
      ∧ ¬ Mentions "The type, and at least one injected field must be passed." "Address"
      ∧ ¬ Mentions "The type, and at least one injected field must be passed." "MANY_TO_MANY"
      ∧ ¬ Mentions "The type, and at least one injected field must be passed." "Many-to-Many")
    ∧ (JDLRelationship.new sampleTypes
        { «from» := some (entity "Customer"), «to» := some (entity ""),
          type := some (.str "MANY_TO_MANY"), injectedFieldInFrom := some (.str "address") }
      = .error (.built .InvalidObject "Valid source and destination entities are required.")
      ∧ ¬ Mentions "Valid source and destination entities are required." "Customer"
      ∧ ¬ Mentions "Valid source and destination entities are required." "MANY_TO_MANY"
      ∧ ¬ Mentions "Valid source and destination entities are required." "Many-to-Many") := by
  decide

/-- Every failure of the constructor is one of its two fixed exceptions. -/
theorem constructor_error_cases (RT : RelationshipTypes) (args : Args) (e : Thrown)
    (h : JDLRelationship.new RT args = .error e) :
    e = .built .InvalidObject "Valid source and destination entities are required."
      ∨ e = .built .NullPointer "The type, and at least one injected field must be passed." := by
  simp only [JDLRelationship.new] at h
  generalize merge (defaults RT) args = merged at h
  split_ifs at h
  · exact Or.inl (by simpa using h.symm)
  · exact Or.inr (by simpa using h.symm)
  · split at h
    · simp at h
    · exact Or.inl (by simpa using h.symm)

/-- C14, amended: every `MalformedAssociation` failure of `validate()` carries a message
that mentions `from.name`, `to.name` and the kind of the instance in words (`One-to-One`,
`Many-to-One` or `Many-to-Many`); the failures of the constructor carry one of two fixed
messages, and the `NullPointer` failure of `validate()` a third one. -/
theorem failure_messages (RT : RelationshipTypes) :
    (∀ (r : JDLRelationship) (msg : String),
      (r.validate RT).outcome = .error (.built .MalformedAssociation msg) →
        Mentions msg r.from.name ∧ Mentions msg r.to.name
        ∧ ((r.type = .str RT.ONE_TO_ONE ∧ Mentions msg "One-to-One")
          ∨ (r.type = .str RT.MANY_TO_ONE ∧ Mentions msg "Many-to-One")
          ∨ (r.type = .str RT.MANY_TO_MANY ∧ Mentions msg "Many-to-Many")))
    ∧ (∀ (args : Args) (e : Thrown), JDLRelationship.new RT args = .error e →
        e = .built .InvalidObject "Valid source and destination entities are required."
        ∨ e = .built .NullPointer
            "The type, and at least one injected field must be passed.")
    ∧ (∀ (r : JDLRelationship) (msg : String),
      (r.validate RT).outcome = .error (.built .NullPointer msg) →
        msg = "The association must not be nil.") := by
  refine ⟨?_, constructor_error_cases RT, ?_⟩
  · intro r msg h
    simp only [JDLRelationship.validate] at h
    split_ifs at h with h0 h1 h2 h3 h4 h5 h6 h7 h8 <;>
      simp only [Except.error.injEq, Thrown.built.injEq, reduceCtorEq, false_and, and_false,
        true_and] at h
    · subst h
      refine ⟨?_, ?_, Or.inl ⟨h1, ?_⟩⟩
      · exact ⟨"In the One-to-One relationship from ".data, _, by
          simp only [String.data_append, List.append_assoc]; rfl⟩
      · exact ⟨("In the One-to-One relationship from " ++ r.from.name ++ " to ").data, _, by
          simp only [String.data_append, List.append_assoc]; rfl⟩
      · exact ⟨"In the ".data, _, by
          simp only [String.data_append, List.append_assoc]; rfl⟩
    · subst h
      refine ⟨?_, ?_, Or.inr (Or.inl ⟨h5, ?_⟩)⟩
      · exact ⟨"In the Many-to-One relationship from ".data, _, by
          simp only [String.data_append, List.append_assoc]; rfl⟩
      · exact ⟨("In the Many-to-One relationship from " ++ r.from.name ++ " to ").data, _, by
          simp only [String.data_append, List.append_assoc]; rfl⟩
      · exact ⟨"In the ".data, _, by
          simp only [String.data_append, List.append_assoc]; rfl⟩
    · subst h
      refine ⟨?_, ?_, Or.inr (Or.inr ⟨h7, ?_⟩)⟩
      · exact ⟨"In the Many-to-Many relationship from ".data, _, by
          simp only [String.data_append, List.append_assoc]; rfl⟩
      · exact ⟨("In the Many-to-Many relationship from " ++ r.from.name ++ " to ").data, _, by
          simp only [String.data_append, List.append_assoc]; rfl⟩
      · exact ⟨"In the ".data, _, by
          simp only [String.data_append, List.append_assoc]; rfl⟩
  · intro r msg h
    simp only [JDLRelationship.validate] at h
    split_ifs at h <;>
      simp only [Except.error.injEq, Thrown.built.injEq, reduceCtorEq, false_and, and_false,
        true_and] at h
    exact h.symm

theorem failure_messages_witness :
    relStudentCourseOneSided.validate sampleTypes
      = ⟨.error (.built .MalformedAssociation
          ("In the Many-to-Many relationship from Student to Course, "
            ++ "only bidirectionality is supported for a Many-to-Many relationship.")),
          relStudentCourseOneSided, []⟩
    ∧ Mentions ("In the Many-to-Many relationship from Student to Course, "
        ++ "only bidirectionality is supported for a Many-to-Many relationship.") "Student"
    ∧ Mentions ("In the Many-to-Many relationship from Student to Course, "
        ++ "only bidirectionality is supported for a Many-to-Many relationship.") "Course" :=
  ⟨by decide,
    ((failure_messages sampleTypes).1 relStudentCourseOneSided
      ("In the Many-to-Many relationship from Student to Course, "
        ++ "only bidirectionality is supported for a Many-to-Many relationship.")
      (by decide)).1,
    ((failure_messages sampleTypes).1 relStudentCourseOneSided
      ("In the Many-to-Many relationship from Student to Course, "
        ++ "only bidirectionality is supported for a Many-to-Many relationship.")
      (by decide)).2.1⟩

/-! ## Defaults -/

/-- C15: a configuration with valid `from` and `to`, at least one injected field given as
a non-empty string, and every other key left out, is constructed; the instance has kind
ONE_TO_ONE, the endpoints and the given injected fields of the configuration, `null` for
an injected field that was left out, and the empty string for both comments. -/
theorem constructor_defaults (RT : RelationshipTypes) (args : Args)
    (hfrom : JDLEntity.isValid (Args.getRef args.from) = true)
    (hto : JDLEntity.isValid (Args.getRef args.to) = true)
    (htype : args.type = none)
    (hcf : args.commentInFrom = none) (hct : args.commentInTo = none)
    (hif : UnspecifiedOrNonEmpty args.injectedFieldInFrom)
    (hit : UnspecifiedOrNonEmpty args.injectedFieldInTo)
    (hone : args.injectedFieldInFrom ≠ none ∨ args.injectedFieldInTo ≠ none) :
    ∃ r, JDLRelationship.new RT args = .ok r
      ∧ EntityRef.obj r.from = Args.getRef args.from
      ∧ EntityRef.obj r.to = Args.getRef args.to
      ∧ r.type = .str RT.ONE_TO_ONE
      ∧ r.commentInFrom = .str "" ∧ r.commentInTo = .str ""
      ∧ (args.injectedFieldInFrom = none → r.injectedFieldInFrom = .null)
      ∧ (args.injectedFieldInTo = none → r.injectedFieldInTo = .null)
      ∧ (∀ v, args.injectedFieldInFrom = some v → r.injectedFieldInFrom = v)
      ∧ (∀ v, args.injectedFieldInTo = some v → r.injectedFieldInTo = v) := by
  obtain ⟨f, t, g, _, _, c1, c2⟩ := args
  simp only at htype hcf hct hfrom hto hif hit hone
  subst htype hcf hct
  cases f with
  | none => simp [Args.getRef, JDLEntity.isValid] at hfrom
  | some f =>
  cases t with
  | none => simp [Args.getRef, JDLEntity.isValid] at hto
  | some t =>
  cases f with
  | obj f =>
    cases t with
    | obj t =>
      have hf : f.name ≠ "" := by simpa [Args.getRef, JDLEntity.isValid] using hfrom
      have ht : t.name ≠ "" := by simpa [Args.getRef, JDLEntity.isValid] using hto
      rcases hif with rfl | ⟨s, rfl, hs⟩ <;> rcases hit with rfl | ⟨u, rfl, hu⟩
      · simp at hone
      · simp [JDLRelationship.new, merge, defaults, Args.get, Args.getRef, JDLEntity.isValid,
          RelationshipTypes.exists, RelationshipTypes.values, Value.truthy, hf, ht, hu]
      · simp [JDLRelationship.new, merge, defaults, Args.get, Args.getRef, JDLEntity.isValid,
          RelationshipTypes.exists, RelationshipTypes.values, Value.truthy, hf, ht, hs]
      · simp [JDLRelationship.new, merge, defaults, Args.get, Args.getRef, JDLEntity.isValid,
          RelationshipTypes.exists, RelationshipTypes.values, Value.truthy, hf, ht, hs]
    | _ => simp [Args.getRef, JDLEntity.isValid] at hto
  | _ => simp [Args.getRef, JDLEntity.isValid] at hfrom

theorem constructor_defaults_witness :
    JDLEntity.isValid (Args.getRef argsCustomerAddress.from) = true
    ∧ JDLEntity.isValid (Args.getRef argsCustomerAddress.to) = true
    ∧ argsCustomerAddress.type = none
    ∧ argsCustomerAddress.commentInFrom = none ∧ argsCustomerAddress.commentInTo = none
    ∧ JDLRelationship.new sampleTypes argsCustomerAddress = .ok relCustomerAddress
    ∧ ∃ r, JDLRelationship.new sampleTypes argsCustomerAddress = .ok r
      ∧ EntityRef.obj r.from = Args.getRef argsCustomerAddress.from
      ∧ EntityRef.obj r.to = Args.getRef argsCustomerAddress.to
      ∧ r.type = .str sampleTypes.ONE_TO_ONE
      ∧ r.commentInFrom = .str "" ∧ r.commentInTo = .str ""
      ∧ (argsCustomerAddress.injectedFieldInFrom = none → r.injectedFieldInFrom = .null)
      ∧ (argsCustomerAddress.injectedFieldInTo = none → r.injectedFieldInTo = .null)
      ∧ (∀ v, argsCustomerAddress.injectedFieldInFrom = some v → r.injectedFieldInFrom = v)
      ∧ (∀ v, argsCustomerAddress.injectedFieldInTo = some v → r.injectedFieldInTo = v) :=
  ⟨rfl, rfl, rfl, rfl, rfl, by decide,
    constructor_defaults sampleTypes argsCustomerAddress rfl rfl rfl rfl rfl
      (Or.inr ⟨"address", rfl, by decide⟩) (Or.inl rfl) (Or.inl (by decide))⟩

/-! ## Construction and the defensive branches of `validate()` -/

/-- C16: for every constructed instance (the four constants being non-empty and pairwise
distinct), `validate()` either returns normally or throws `MalformedAssociation`; it
throws neither the `NullPointer` of the nil check nor anything from the default branch
of the `switch`. -/
theorem validate_constructed (RT : RelationshipTypes) (r : JDLRelationship)
    (hRT : RT.WellFormed) (hc : Constructed RT r) :
    ((r.validate RT).outcome = .ok ()
      ∨ ∃ msg, (r.validate RT).outcome = .error (.built .MalformedAssociation msg))
    ∧ (∀ msg, (r.validate RT).outcome ≠ .error (.built .NullPointer msg))
    ∧ (∀ msg, (r.validate RT).outcome ≠ .error (.built .WrongAssociation msg))
    ∧ (∀ x, (r.validate RT).outcome ≠ .error (.referenceError x)) := by
  obtain ⟨k, hk, hr⟩ := (RT.exists_iff _).1 hc.guards.2.2.1
  obtain ⟨h1, h2, h3, h4, -⟩ := hRT
  have hne : k ≠ "" := by
    simp only [RelationshipTypes.values, List.mem_cons, List.mem_singleton, List.not_mem_nil,
      or_false] at hk
    rcases hk with rfl | rfl | rfl | rfl <;> assumption
  have ht : r.type.truthy = true := by rw [hr]; exact (Value.truthy_str _).2 hne
  have hcase : r.type = .str RT.ONE_TO_ONE ∨ r.type = .str RT.ONE_TO_MANY
      ∨ r.type = .str RT.MANY_TO_ONE ∨ r.type = .str RT.MANY_TO_MANY := by
    simp only [RelationshipTypes.values, List.mem_cons, List.mem_singleton, List.not_mem_nil,
      or_false] at hk
    rcases hk with rfl | rfl | rfl | rfl <;> simp [hr]
  have key : (r.validate RT).outcome = .ok ()
      ∨ ∃ msg, (r.validate RT).outcome = .error (.built .MalformedAssociation msg) := by
    simp only [JDLRelationship.validate, ht]
    split_ifs <;> simp_all
  refine ⟨key, ?_, ?_, ?_⟩ <;> intro x hx <;> rcases key with h | ⟨m, h⟩ <;>
    rw [h] at hx <;> simp at hx

theorem validate_constructed_witness :
    sampleTypes.WellFormed ∧ Constructed sampleTypes relCustomerAddress
    ∧ ((relCustomerAddress.validate sampleTypes).outcome = .ok ()
      ∨ ∃ msg, (relCustomerAddress.validate sampleTypes).outcome
          = .error (.built .MalformedAssociation msg)) :=
  ⟨by decide, ⟨argsCustomerAddress, by decide⟩,
    (validate_constructed sampleTypes relCustomerAddress (by decide)
      ⟨argsCustomerAddress, by decide⟩).1⟩

/-! ## Frame of `validate()` -/

/-- C17: `validate()` leaves the instance as it was, whether it returns or throws: every
field after the call equals the field before it; on the ONE_TO_MANY path with a missing
injected field it writes its warning and the missing side stays missing. -/
theorem validate_frame :
    (∀ (RT : RelationshipTypes) (r : JDLRelationship),
      (r.validate RT).self = r
      ∧ (r.validate RT).self.from = r.from ∧ (r.validate RT).self.to = r.to
      ∧ (r.validate RT).self.type = r.type
      ∧ (r.validate RT).self.injectedFieldInFrom = r.injectedFieldInFrom
      ∧ (r.validate RT).self.injectedFieldInTo = r.injectedFieldInTo
      ∧ (r.validate RT).self.commentInFrom = r.commentInFrom
      ∧ (r.validate RT).self.commentInTo = r.commentInTo)
    ∧ relOwnerCar.validate sampleTypes
        = ⟨.ok (), relOwnerCar,
            ["In the One-to-Many relationship from Owner to  Car, only bidirectionality is "
              ++ "supported for a One-to-Many association. The other side will be "
              ++ "automatically added."]⟩
    ∧ (relOwnerCar.validate sampleTypes).self.injectedFieldInTo = .null := by
  refine ⟨fun RT r => ?_, by decide, by decide⟩
  have h : (r.validate RT).self = r := by
    simp only [JDLRelationship.validate]
    split_ifs <;> rfl
  simp [h]

/-! ## The static `isValid` -/

/-- An instance that passed the two guards of the constructor satisfies `isValid`. -/
theorem isValid_of_constructed {RT : RelationshipTypes} {r : JDLRelationship}
    (h : Constructed RT r) : JDLRelationship.isValid RT (some r.toObject) = true := by
  obtain ⟨h1, h2, h3, h4⟩ := h.guards
  have h5 : r.injectedFieldInFrom.notNullish = true ∨ r.injectedFieldInTo.notNullish = true := by
    rcases h4 with h4 | h4
    · obtain ⟨s, hs, -⟩ := (Value.truthy_iff _).1 h4
      exact Or.inl (by rw [hs]; rfl)
    · obtain ⟨s, hs, -⟩ := (Value.truthy_iff _).1 h4
      exact Or.inr (by rw [hs]; rfl)
  simpa [JDLRelationship.isValid, JDLRelationship.toObject, Args.get, Args.getRef,
    JDLEntity.isValid, h1, h2, h3] using h5

/-- C18: every instance returned by the constructor satisfies the static
`JDLRelationship.isValid`. -/
theorem constructor_result_isValid (RT : RelationshipTypes) (args : Args)
    (r : JDLRelationship) (h : JDLRelationship.new RT args = .ok r) :
    JDLRelationship.isValid RT (some r.toObject) = true :=
  isValid_of_constructed ⟨args, h⟩

theorem constructor_result_isValid_witness :
    JDLRelationship.new sampleTypes argsCustomerAddress = .ok relCustomerAddress
    ∧ JDLRelationship.isValid sampleTypes (some relCustomerAddress.toObject) = true :=
  ⟨by decide,
    constructor_result_isValid sampleTypes argsCustomerAddress relCustomerAddress (by decide)⟩

/-- C19: `isValid` is strictly weaker than the acceptance condition of the constructor:
the fields of every constructed instance satisfy `isValid`, while the record with valid
endpoints, the kind ONE_TO_ONE, the empty string as injected field of `from` and `null`
as injected field of `to` satisfies `isValid` although the constructor rejects it with
`NullPointer`; more generally this holds for every record with valid endpoints, a
recognized kind, the empty string as one injected field and a falsy other one. -/
theorem isValid_weaker_than_constructor (RT : RelationshipTypes) :
    (∀ (args : Args) (r : JDLRelationship), JDLRelationship.new RT args = .ok r →
      JDLRelationship.isValid RT (some r.toObject) = true)
    ∧ JDLRelationship.isValid RT (some (recordEmptyInjectedField RT)) = true
    ∧ JDLRelationship.new RT (recordEmptyInjectedField RT)
        = .error (.built .NullPointer
            "The type, and at least one injected field must be passed.")
    ∧ (∀ (f t : JDLEntity) (k : Value) (other : Value),
        f.name ≠ "" → t.name ≠ "" → RT.exists k = true → other.truthy = false →
        JDLRelationship.isValid RT (some
            { «from» := some (.obj f), «to» := some (.obj t), type := some k,
              injectedFieldInFrom := some (.str ""), injectedFieldInTo := some other }) = true
        ∧ JDLRelationship.new RT
            { «from» := some (.obj f), «to» := some (.obj t), type := some k,
              injectedFieldInFrom := some (.str ""), injectedFieldInTo := some other }
          = .error (.built .NullPointer
              "The type, and at least one injected field must be passed.")) := by
  have gen : ∀ (f t : JDLEntity) (k : Value) (other : Value),
      f.name ≠ "" → t.name ≠ "" → RT.exists k = true → other.truthy = false →
      JDLRelationship.isValid RT (some
          { «from» := some (.obj f), «to» := some (.obj t), type := some k,
            injectedFieldInFrom := some (.str ""), injectedFieldInTo := some other }) = true
      ∧ JDLRelationship.new RT
          { «from» := some (.obj f), «to» := some (.obj t), type := some k,
            injectedFieldInFrom := some (.str ""), injectedFieldInTo := some other }
        = .error (.built .NullPointer
            "The type, and at least one injected field must be passed.") := by
    intro f t k other hf ht hk ho
    constructor
    · simp [JDLRelationship.isValid, Args.get, Args.getRef, JDLEntity.isValid, hf, ht, hk,
        Value.notNullish]
    · have he : (Value.str "").truthy = false := rfl
      simp [JDLRelationship.new, merge, defaults, Args.get, Args.getRef, JDLEntity.isValid,
        hf, ht, hk, ho, he]
  have hk : RT.exists (.str RT.ONE_TO_ONE) = true := by
    simp [RelationshipTypes.exists, RelationshipTypes.values]
  refine ⟨fun args r h => isValid_of_constructed ⟨args, h⟩, ?_, ?_, gen⟩
  · exact (gen ⟨"Customer"⟩ ⟨"Address"⟩ (.str RT.ONE_TO_ONE) .null (by decide) (by decide)
      hk rfl).1
  · exact (gen ⟨"Customer"⟩ ⟨"Address"⟩ (.str RT.ONE_TO_ONE) .null (by decide) (by decide)
      hk rfl).2

theorem isValid_weaker_than_constructor_witness :
    (JDLEntity.mk "Customer").name ≠ "" ∧ (JDLEntity.mk "Address").name ≠ ""
    ∧ sampleTypes.exists (.str "ONE_TO_ONE") = true ∧ Value.null.truthy = false
    ∧ JDLRelationship.isValid sampleTypes (some
          { «from» := some (.obj ⟨"Customer"⟩), «to» := some (.obj ⟨"Address"⟩),
            type := some (.str "ONE_TO_ONE"),
            injectedFieldInFrom := some (.str ""), injectedFieldInTo := some .null }) = true
    ∧ JDLRelationship.new sampleTypes
          { «from» := some (.obj ⟨"Customer"⟩), «to» := some (.obj ⟨"Address"⟩),
            type := some (.str "ONE_TO_ONE"),
            injectedFieldInFrom := some (.str ""), injectedFieldInTo := some .null }
        = .error (.built .NullPointer
            "The type, and at least one injected field must be passed.") :=
  ⟨by decide, by decide, rfl, rfl,
    (isValid_weaker_than_constructor sampleTypes).2.2.2 ⟨"Customer"⟩ ⟨"Address"⟩
      (.str "ONE_TO_ONE") .null (by decide) (by decide) rfl rfl⟩

end JDL
